import Mathlib

/-!
Verification of the oas-tools `OASRouter` middleware
(`src/middleware/oas-router.js`): a shallow embedding of operation
resolution (controller-name and operationId computation), the response
interceptor (`res.send` wrapper plus `checkResponse`), and the helper
functions (`processErr`, `existsController`, `nameOfPath`, `nameMethod`,
`generateName`, `generateOpId`), together with theorems settling the
specification's claims about them.

JavaScript machine values are modelled as follows: JSON-representable
values become the inductive `JsVal` (numbers restricted to integers,
which covers every value exercised here); `undefined`/thrown exceptions
of fallible operations become `Except`/`Option`; property tables become
association lists; Node's `require` becomes an explicit map from module
path to a `RequireResult`.
-/

set_option autoImplicit false

namespace OasRouter

/-- A JSON-representable JavaScript value (numbers restricted to
integers; every payload handled in this development is integral). -/
inductive JsVal where
  | jnull
  | jbool (b : Bool)
  | jnum (n : Int)
  | jstr (s : String)
  | jarr (elems : List JsVal)
  | jobj (fields : List (String × JsVal))

/-- JSON Schema fragment, modelling the subset of z-schema behaviour the
router exercises: type checks for the primitive types, arrays with an
`items` schema, and objects with `required` and `properties`. -/
inductive Schema where
  | sInteger
  | sNumber
  | sString
  | sBoolean
  | sArray (items : Schema)
  | sObject (required : List String) (props : List (String × Schema))

/-- The `content['application/json']` entry of a response section: carries the
schema used for validation. -/
structure MediaObj where
  schema : Schema

/-- One response-code section of the specification
(`spec.paths[url][method].responses[code]`). `content` is `none` when the
section has no `content` property. -/
structure ResponseObj where
  content : Option (List (String × MediaObj))

/-- The Operation Descriptor `spec.paths[url][method]`: optional
`operationId`, optional `x-router-controller` override, and the response
map keyed by the status-code string. -/
structure OperationDescriptor where
  operationId : Option String
  xRouterController : Option String
  responses : List (String × ResponseObj)

/-- The specification document: paths keyed by normalized path, then by
lowercase HTTP method. -/
structure Spec where
  paths : List (String × List (String × OperationDescriptor))

/-- Lookup of `spec.paths[url][method]` as an association-list access; `none` models
the property being `undefined`. -/
def lookupOp (spec : Spec) (url method : String) : Option OperationDescriptor :=
  match spec.paths.lookup url with
  | none => none
  | some byMethod => byMethod.lookup method

/-- Outcome of Node's `require(p)` for a given module path `p`: the load
throws (module missing or malformed), or it yields a value that is loosely
equal to `undefined` (i.e. `undefined` or `null` exports), or it yields a
defined module value. -/
inductive RequireResult where
  | err
  | undefinedLoad
  | defined

/-- The ambient module system: what `require` does at each path. -/
def Modules : Type := String → RequireResult

/-- Node's `path.join(a, b)`, modelled as separator concatenation. -/
def pathJoin (a b : String) : String := a ++ "/" ++ b

/-- The value JavaScript turns an argument into when it needs a string:
either the argument already is a string, or it is the Operation Descriptor
object, whose default `toString` yields `"[object Object]"`. These are the
only two argument shapes `nameOfPath`/`nameMethod` receive in the source. -/
inductive JsPathArg where
  | str (s : String)
  | descriptor (d : OperationDescriptor)

/-- JavaScript `arg.toString()` for the two argument shapes. -/
def jsToString : JsPathArg → String
  | .str s => s
  | .descriptor _ => "[object Object]"

/-- JavaScript `arg.length` for the two argument shapes: a string has its
length, a plain descriptor object has no `length` property (`undefined`). -/
def jsLength : JsPathArg → Option Nat
  | .str s => some s.length
  | .descriptor _ => none

/-- ECMAScript `String.prototype.substring(start, end)` for non-negative
`start`: `end = undefined` becomes the string length, both indices are
clamped to the length, and the smaller index is the start of the slice. -/
def jsSubstring (s : String) (start : Nat) (stop : Option Nat) : String :=
  let len := s.length
  let intEnd := match stop with
    | none => len
    | some n => min n len
  let intStart := min start len
  let from_ := min intStart intEnd
  let to_ := max intStart intEnd
  String.mk ((s.data.take to_).drop from_)

/-- Source `nameOfPath(reqPath)`: `reqPath.toString().substring(1, reqPath.length)`.
For a string, this strips the leading character; for the descriptor object
it yields `"object Object]"` (substring of `"[object Object]"` from index 1
to the end, since the object's `length` property is `undefined`). -/
def nameOfPath (reqPath : JsPathArg) : String :=
  jsSubstring (jsToString reqPath) 1 (jsLength reqPath)

/-- Source `generateName(url)`: `nameOfPath(url) + "Controllers"`. -/
def generateName (url : String) : String :=
  nameOfPath (.str url) ++ "Controllers"

/-- Source `nameMethod(method)`: stringifies the argument and maps
`GET`/`POST`/`PUT` to `list`/`create`/`update`, everything else to
`delete`. -/
def nameMethod (method : JsPathArg) : String :=
  let m := jsToString method
  if m = "GET" then "list"
  else if m = "POST" then "create"
  else if m = "PUT" then "update"
  else "delete"

/-- Source `generateOpId(spec, url, method)`: the descriptor `operationId` when
present; otherwise `nameMethod(spec.paths[url][method]) +
nameOfPath(spec.paths[url][method])` — note that the source passes the
descriptor object itself, not the method or url string, to both helpers.
`.error` models the `TypeError` thrown when the path or method is absent. -/
def generateOpId (spec : Spec) (url method : String) : Except String String :=
  match lookupOp spec url method with
  | none => .error "TypeError: cannot read properties of undefined"
  | some d =>
    match d.operationId with
    | some o => .ok o
    | none => .ok (nameMethod (.descriptor d) ++ nameOfPath (.descriptor d))

/-- Source `existsController(locationOfControllers, controllerName)`: requires the
module at the joined path; a throwing `require` propagates (`.error`), a
load that is `== undefined` gives `false`, anything else `true`. -/
def existsController (mods : Modules) (locationOfControllers controllerName : String) :
    Except String Bool :=
  match mods (pathJoin locationOfControllers controllerName) with
  | .err => .error ("Cannot find module " ++ pathJoin locationOfControllers controllerName)
  | .undefinedLoad => .ok false
  | .defined => .ok true

/-- The router's configuration object: `options.controllers`. -/
structure RouterOptions where
  controllers : String

/-- The controller-name branch of `OASRouter` (lines 169-175): the
`x-router-controller` override verbatim when present; otherwise the
convention-derived `generateName(url)` when `existsController` finds it;
otherwise the literal default name `"Defualt"`. An exception from
`existsController` propagates. -/
def resolveControllerName (spec : Spec) (mods : Modules) (opts : RouterOptions)
    (url method : String) : Except String String :=
  match lookupOp spec url method with
  | none => .error "TypeError: cannot read properties of undefined"
  | some d =>
    match d.xRouterController with
    | some c => .ok c
    | none =>
      match existsController mods opts.controllers (generateName url) with
      | .error e => .error e
      | .ok true => .ok (generateName url)
      | .ok false => .ok "Defualt"

/-- The full resolution step of `OASRouter`: the `(controllerName, opID)`
pair computed before the controller module is required. -/
def resolvePair (spec : Spec) (mods : Modules) (opts : RouterOptions)
    (url method : String) : Except String (String × String) :=
  match resolveControllerName spec mods opts url method with
  | .error e => .error e
  | .ok c =>
    match generateOpId spec url method with
    | .error e => .error e
    | .ok o => .ok (c, o)

/-- JSON string escaping as performed by `JSON.stringify` (the escapes
needed for the characters occurring in this development). -/
def escapeJsonString (s : String) : String :=
  s.data.foldl (fun acc c =>
    acc ++ (if c = '"' then "\\\""
      else if c = '\\' then "\\\\"
      else if c = '\n' then "\\n"
      else if c = '\t' then "\\t"
      else if c = '\r' then "\\r"
      else String.mk [c])) ""

mutual

/-- The `JSON.stringify` serialization of a `JsVal` (no spacing, insertion order of object
keys, integers printed in decimal). -/
def jsonStringify : JsVal → String
  | .jnull => "null"
  | .jbool true => "true"
  | .jbool false => "false"
  | .jnum n => toString n
  | .jstr s => "\"" ++ escapeJsonString s ++ "\""
  | .jarr elems => "[" ++ stringifyElems elems ++ "]"
  | .jobj fields => "\x7b" ++ stringifyFields fields ++ "\x7d"

/-- Comma-separated serialization of array elements. -/
def stringifyElems : List JsVal → String
  | [] => ""
  | [v] => jsonStringify v
  | v :: rest => jsonStringify v ++ "," ++ stringifyElems rest

/-- Comma-separated serialization of object members. -/
def stringifyFields : List (String × JsVal) → String
  | [] => ""
  | [(k, v)] => "\"" ++ escapeJsonString k ++ "\":" ++ jsonStringify v
  | (k, v) :: rest =>
    "\"" ++ escapeJsonString k ++ "\":" ++ jsonStringify v ++ "," ++ stringifyFields rest

end

/-- Drops leading JSON whitespace. -/
def skipWs : List Char → List Char
  | [] => []
  | c :: cs => if c = ' ' ∨ c = '\t' ∨ c = '\n' ∨ c = '\r' then skipWs cs else c :: cs

/-- Decodes a JSON string escape character. -/
def decodeEscape (c : Char) : Option Char :=
  if c = '"' then some '"'
  else if c = '\\' then some '\\'
  else if c = '/' then some '/'
  else if c = 'n' then some '\n'
  else if c = 't' then some '\t'
  else if c = 'r' then some '\r'
  else none

/-- Parses the body of a JSON string after the opening quote, returning
the decoded characters and the input remaining after the closing quote. -/
def parseStringBody : List Char → Option (List Char × List Char)
  | [] => none
  | '"' :: rest => some ([], rest)
  | '\\' :: e :: rest =>
    match decodeEscape e with
    | none => none
    | some d =>
      match parseStringBody rest with
      | none => none
      | some (body, rem) => some (d :: body, rem)
  | c :: rest =>
    match parseStringBody rest with
    | none => none
    | some (body, rem) => some (c :: body, rem)

/-- Splits a leading run of decimal digits off the input. -/
def takeDigits : List Char → List Char × List Char
  | [] => ([], [])
  | c :: cs =>
    if c.isDigit then
      let (ds, rest) := takeDigits cs
      (c :: ds, rest)
    else ([], c :: cs)

/-- Decimal value of a digit run. -/
def digitsToNat (ds : List Char) : Nat :=
  ds.foldl (fun acc c => acc * 10 + (c.toNat - 48)) 0

/-- Parses a JSON number (integers only, matching the `JsVal` model). -/
def parseNumber : List Char → Option (JsVal × List Char)
  | '-' :: cs =>
    match takeDigits cs with
    | ([], _) => none
    | (ds, rest) => some (.jnum (-(digitsToNat ds : Int)), rest)
  | cs =>
    match takeDigits cs with
    | ([], _) => none
    | (ds, rest) => some (.jnum (digitsToNat ds), rest)

/-- Consumes an expected literal prefix. -/
def dropLiteral (pre : List Char) (cs : List Char) : Option (List Char) :=
  match pre, cs with
  | [], rest => some rest
  | p :: ps, c :: rest => if c = p then dropLiteral ps rest else none
  | _ :: _, [] => none

mutual

/-- Fuel-indexed JSON value grammar (`JSON.parse` modulo the integral
restriction on numbers). -/
def parseVal : Nat → List Char → Option (JsVal × List Char)
  | 0, _ => none
  | fuel + 1, cs =>
    match skipWs cs with
    | [] => none
    | c :: rest =>
      if c = 'n' then (dropLiteral ['u', 'l', 'l'] rest).map (fun r => (.jnull, r))
      else if c = 't' then (dropLiteral ['r', 'u', 'e'] rest).map (fun r => (.jbool true, r))
      else if c = 'f' then (dropLiteral ['a', 'l', 's', 'e'] rest).map (fun r => (.jbool false, r))
      else if c = '"' then (parseStringBody rest).map (fun p => (.jstr (String.mk p.1), p.2))
      else if c = '[' then
        match skipWs rest with
        | ']' :: rem => some (.jarr [], rem)
        | more => (parseElems fuel more).map (fun p => (.jarr p.1, p.2))
      else if c = '\x7b' then
        match skipWs rest with
        | '\x7d' :: rem => some (.jobj [], rem)
        | more => (parseMembers fuel more).map (fun p => (.jobj p.1, p.2))
      else if c = '-' ∨ c.isDigit then parseNumber (c :: rest)
      else none

/-- Parses the non-empty element list of a JSON array, including the
closing bracket. -/
def parseElems : Nat → List Char → Option (List JsVal × List Char)
  | 0, _ => none
  | fuel + 1, cs =>
    match parseVal fuel cs with
    | none => none
    | some (v, rest) =>
      match skipWs rest with
      | ',' :: more =>
        match parseElems fuel more with
        | none => none
        | some (vs, rem) => some (v :: vs, rem)
      | ']' :: rem => some ([v], rem)
      | _ => none

/-- Parses the non-empty member list of a JSON object, including the
closing brace. -/
def parseMembers : Nat → List Char → Option (List (String × JsVal) × List Char)
  | 0, _ => none
  | fuel + 1, cs =>
    match skipWs cs with
    | '"' :: rest =>
      match parseStringBody rest with
      | none => none
      | some (key, afterKey) =>
        match skipWs afterKey with
        | ':' :: afterColon =>
          match parseVal fuel afterColon with
          | none => none
          | some (v, rest2) =>
            match skipWs rest2 with
            | ',' :: more =>
              match parseMembers fuel more with
              | none => none
              | some (fs, rem) => some ((String.mk key, v) :: fs, rem)
            | '\x7d' :: rem => some ([(String.mk key, v)], rem)
            | _ => none
        | _ => none
    | _ => none

end

/-- The `JSON.parse(data)` builtin, returning `none` where `JSON.parse` throws a
`SyntaxError` (every nesting level consumes input, so `s.length + 1` fuel
suffices for any parseable input). -/
def jsonParse (s : String) : Option JsVal :=
  match parseVal (s.length + 1) s.data with
  | none => none
  | some (v, rest) =>
    match skipWs rest with
    | [] => some v
    | _ :: _ => none

/-- The JSON type tag z-schema reports for a value (`jnum` values are
integral, so they carry the `integer` tag). -/
def jsType : JsVal → String
  | .jnull => "null"
  | .jbool _ => "boolean"
  | .jnum _ => "integer"
  | .jstr _ => "string"
  | .jarr _ => "array"
  | .jobj _ => "object"

/-- One element of the error array z-schema hands to the validation
callback; `processErr` reads its `message` property. -/
structure ZSchemaError where
  message : String

/-- z-schema's `INVALID_TYPE` message. -/
def invalidType (expected found : String) : ZSchemaError :=
  ⟨"Expected type " ++ expected ++ " but found type " ++ found⟩

/-- Fuel-indexed body of the z-schema validation collaborator; the fuel
only bounds the schema-nesting depth descended into and is never
exhausted when it starts at `sizeOf` of the schema, since every child
schema of a constructor has a strictly smaller `sizeOf`. -/
def validateFuel : Nat → Schema → JsVal → List ZSchemaError
  | 0, _, _ => []
  | fuel + 1, schema, v =>
    match schema with
    | .sInteger => if jsType v = "integer" then [] else [invalidType "integer" (jsType v)]
    | .sNumber => if jsType v = "integer" then [] else [invalidType "number" (jsType v)]
    | .sString => if jsType v = "string" then [] else [invalidType "string" (jsType v)]
    | .sBoolean => if jsType v = "boolean" then [] else [invalidType "boolean" (jsType v)]
    | .sArray items =>
      match v with
      | .jarr elems => elems.foldr (fun e acc => validateFuel fuel items e ++ acc) []
      | _ => [invalidType "array" (jsType v)]
    | .sObject required props =>
      match v with
      | .jobj fields =>
        (required.filterMap fun r =>
          if (fields.lookup r).isSome then none
          else some ⟨"Missing required property: " ++ r⟩) ++
        props.foldr (fun p acc =>
          (match fields.lookup p.1 with
           | some w => validateFuel fuel p.2 w
           | none => []) ++ acc) []
      | _ => [invalidType "object" (jsType v)]

mutual

/-- Nesting measure of a schema, used as always-sufficient fuel for
`validateFuel`: every child schema has a strictly smaller measure. -/
def schemaFuel : Schema → Nat
  | .sInteger => 1
  | .sNumber => 1
  | .sString => 1
  | .sBoolean => 1
  | .sArray items => schemaFuel items + 1
  | .sObject _ props => propsFuel props + 1

/-- Combined measure of the property schemas of an object schema. -/
def propsFuel : List (String × Schema) → Nat
  | [] => 0
  | (_, sch) :: rest => schemaFuel sch + propsFuel rest + 1

end

/-- The z-schema validation collaborator: the error list produced by
validating a value against a schema (empty means valid). -/
def validate (schema : Schema) (v : JsVal) : List ZSchemaError :=
  validateFuel (schemaFuel schema) schema v

/-- Source `processErr(err)`: folds `". " + err[i].message` over an empty
accumulator and then takes `errors.substring(2, errors.length)`. -/
def processErr (err : List ZSchemaError) : String :=
  let errors := err.foldl (fun acc e => acc ++ ". " ++ e.message) ""
  jsSubstring errors 2 (some errors.length)

/-- One `logger.info` call: the argument is a string, the numeric status
code, the schema object, or the parsed response data. -/
inductive LogEntry where
  | text (msg : String)
  | codeObj (code : Nat)
  | schemaObj (sch : Schema)
  | jsObj (v : JsVal)

/-- The six `logger.info` lines at the top of `checkResponse` (string
concatenation renders the spec object as `[object Object]`). -/
def checkInfoLogs (code : Nat) (method url data : String) : List LogEntry :=
  [.text "Processing at checkResponse:",
   .text ("  -code: " ++ toString code),
   .text "  -spec: [object Object]",
   .text ("  -method: " ++ method),
   .text ("  -url: " ++ url),
   .text ("  -data: " ++ data)]

/-- The `TypeError` thrown by `responseCodeSection.content['application/json'].schema`
when the `content` table has no `application/json` key. -/
def undefinedSchemaAccessError : String :=
  "TypeError: Cannot read property schema of undefined"

/-- The `SyntaxError` thrown by `JSON.parse` on unparseable data. -/
def jsonParseError : String := "SyntaxError: Unexpected token in JSON"

/-- Source `checkResponse(code, spec, method, url, data)` on the first send
argument `data`: yields the `logger.info` entries it emits, or `.error`
where the JavaScript throws. The response section is looked up under the
stringified status code; an absent section logs the wrong-response-code
warning and skips validation; a section without a `content` property skips
validation silently; otherwise the `application/json` schema is fetched
(throwing if that key is absent), the data is `JSON.parse`d (throwing on
failure), and z-schema errors are logged via `processErr`. -/
def checkResponse (code : Nat) (spec : Spec) (method url : String) (data : String) :
    Except String (List LogEntry) :=
  let logs := checkInfoLogs code method url data
  match lookupOp spec url method with
  | none => .error "TypeError: cannot read properties of undefined"
  | some d =>
    match d.responses.lookup (toString code) with
    | none => .ok (logs ++ [.text "WARNING: wrong response code", .codeObj code])
    | some responseCodeSection =>
      match responseCodeSection.content with
      | none => .ok logs
      | some content =>
        match content.lookup "application/json" with
        | none => .error undefinedSchemaAccessError
        | some media =>
          let logs := logs ++ [.text "schema to use for validation", .schemaObj media.schema]
          match jsonParse data with
          | none => .error jsonParseError
          | some parsed =>
            match validate media.schema parsed with
            | [] => .ok logs
            | e :: es =>
              .ok (logs ++
                [.text ("WARNING: wrong data in the response. " ++ processErr (e :: es)),
                 .jsObj parsed])

/-- Observable outcome of one call of the wrapped `res.send`: the status
code and body handed to the original `send`, how many times the original
`send` ran, and the log entries emitted on the way. -/
structure SendResult where
  statusCode : Nat
  body : String
  sendCalls : Nat
  logs : List LogEntry

/-- The interceptor installed by `OASRouter` (lines 180-185): the wrapped
`res.send` replaces its first argument with `JSON.stringify` of the
payload, runs `checkResponse`, then applies the original `send` once with
the replaced arguments. An exception out of `checkResponse` propagates
before the original `send` runs, so `.error` means no delivery. -/
def wrappedSend (spec : Spec) (method url : String) (statusCode : Nat) (payload : JsVal) :
    Except String SendResult :=
  let stringified := jsonStringify payload
  match checkResponse statusCode spec method url stringified with
  | .error e => .error e
  | .ok logs => .ok ⟨statusCode, stringified, 1, logs⟩

/-! Concrete fixtures used by the witnesses and counterexamples. -/

/-- Schema of one pet from the test specification: object with required
integer `id`, required string `name`, optional string `tag`. -/
def petSchema : Schema :=
  .sObject ["id", "name"] [("id", .sInteger), ("name", .sString), ("tag", .sString)]

/-- Operation Descriptor for `GET /pets` with no `operationId` and no
`x-router-controller`, declaring a JSON array-of-pets schema for `200`. -/
def petsGetDescriptor : OperationDescriptor :=
  { operationId := none
    xRouterController := none
    responses :=
      [("200", { content := some [("application/json", { schema := .sArray petSchema })] })] }

/-- A specification with the single operation `GET /pets`. -/
def petSpec : Spec := { paths := [("/pets", [("get", petsGetDescriptor)])] }

/-- Descriptor whose `200` response declares only `text/plain` content. -/
def plainContentDescriptor : OperationDescriptor :=
  { operationId := some "listPlain"
    xRouterController := none
    responses := [("200", { content := some [("text/plain", { schema := .sString })] })] }

/-- A specification whose declared response content carries no
`application/json` entry. -/
def plainSpec : Spec := { paths := [("/plain", [("get", plainContentDescriptor)])] }

/-- Descriptor whose `204` response section has no `content` property. -/
def noContentDescriptor : OperationDescriptor :=
  { operationId := some "deletePets"
    xRouterController := none
    responses := [("204", { content := none })] }

/-- A specification whose declared response section has no content. -/
def noContentSpec : Spec := { paths := [("/pets", [("delete", noContentDescriptor)])] }

/-- Descriptor carrying an explicit `x-router-controller` override. -/
def overrideDescriptor : OperationDescriptor :=
  { operationId := some "customList"
    xRouterController := some "myCustomController"
    responses := [("200", { content := none })] }

/-- A specification with an `x-router-controller` override on `GET /pets`. -/
def overrideSpec : Spec := { paths := [("/pets", [("get", overrideDescriptor)])] }

/-- A module system in which every `require` throws (no module exists). -/
def failingMods : Modules := fun _ => .err

/-- A module system in which every `require` yields `undefined`. -/
def undefMods : Modules := fun _ => .undefinedLoad

/-- A module system in which every `require` yields a defined module. -/
def definedMods : Modules := fun _ => .defined

/-- The router options used by the concrete fixtures. -/
def ctrlOpts : RouterOptions := { controllers := "/controllers" }

/-! Claims. -/

/-- Claim C1 (code_bug): the claim says that without an explicit
`operationId` the synthesized identifier is the method-derived verb
(`GET` gives `list`) concatenated with the path minus its leading slash
(`listpets` for `GET /pets`). The code instead passes the Operation
Descriptor object itself to `nameMethod` and `nameOfPath`
(`nameMethod(spec.paths[url][method]) + nameOfPath(spec.paths[url][method])`),
so every synthesized identifier is `"delete" + "object Object]"` — the
verb for the unrecognized stringification `"[object Object]"` followed by
that stringification minus its first character. The theorem evaluates the
code at `GET /pets` and contrasts it with the claimed value. -/
theorem claim_c1_generateOpId_descriptor_defect :
    generateOpId petSpec "/pets" "get" = .ok "deleteobject Object]" ∧
    nameMethod (.str "GET") ++ nameOfPath (.str "/pets") = "listpets" ∧
    ("deleteobject Object]" : String) ≠ "listpets" := by
  refine ⟨rfl, ?_, ?_⟩ <;> decide

/-- Claim C2 counterexample: the claim says the payload handed to the
original `send` equals exactly what the handler passed. For the handler
payload `"hello"` (a string) the wrapped `send` hands the original `send`
the string `"\"hello\""` — `JSON.stringify` of the payload — not
`"hello"`. -/
theorem claim_c2_counterexample :
    (wrappedSend petSpec "get" "/pets" 404 (.jstr "hello")).map SendResult.body =
      .ok "\"hello\"" ∧
    ("\"hello\"" : String) ≠ "hello" := by
  refine ⟨rfl, ?_⟩
  decide

/-- Claim C2 (amended): whenever the validation step completes — pass,
schema mismatch, or validation skipped, i.e. `checkResponse` returns
rather than throws — the wrapped `send` invokes the original `send`
exactly once with the status code unchanged and with `JSON.stringify` of
the handler's payload as body (byte-identical JSON text for values the
framework would itself serialize, quote-wrapped for a raw string payload);
delivery is never cancelled in these cases. -/
theorem claim_c2_amended_send_forwards_stringified_payload_once
    (spec : Spec) (method url : String) (status : Nat) (payload : JsVal)
    (logs : List LogEntry)
    (h : checkResponse status spec method url (jsonStringify payload) = .ok logs) :
    wrappedSend spec method url status payload =
      .ok ⟨status, jsonStringify payload, 1, logs⟩ := by
  simp [wrappedSend, h]

/-- Claim C2 witness: a concrete passing validation (`GET /pets`, status
`200`, payload `[]`) where the wrapped `send` delivers status `200` and
body `"[]"` exactly once. -/
theorem claim_c2_witness :
    wrappedSend petSpec "get" "/pets" 200 (.jarr []) =
      .ok ⟨200, "[]", 1,
        checkInfoLogs 200 "get" "/pets" "[]" ++
          [.text "schema to use for validation", .schemaObj (.sArray petSchema)]⟩ :=
  claim_c2_amended_send_forwards_stringified_payload_once petSpec "get" "/pets" 200
    (.jarr []) _ (by rfl)

/-- Claim C3 counterexample: the claim says that without an override,
resolution returns the fixed default module name whenever the
convention-derived module is not loadable, without raising an error. With
no conventional module present (`require` throws), resolution instead
propagates the exception: it does not return the default name `"Defualt"`
and is not error-free. -/
theorem claim_c3_counterexample :
    resolveControllerName petSpec failingMods ctrlOpts "/pets" "get" =
      .error ("Cannot find module " ++ pathJoin "/controllers" "petsControllers") ∧
    (resolveControllerName petSpec failingMods ctrlOpts "/pets" "get").isOk = false := by
  exact ⟨rfl, rfl⟩

/-- Claim C3 (amended): without an override, resolution returns the
convention-derived name when the conventional module loads to a defined
value, returns the fixed default name `"Defualt"` when it loads to an
undefined value, and propagates the `require` exception — reaching no
result at all — when the module cannot be loaded. -/
theorem claim_c3_amended_convention_fallback
    (spec : Spec) (mods : Modules) (opts : RouterOptions) (url method : String)
    (d : OperationDescriptor)
    (h1 : lookupOp spec url method = some d)
    (h2 : d.xRouterController = none) :
    (mods (pathJoin opts.controllers (generateName url)) = .defined →
      resolveControllerName spec mods opts url method = .ok (generateName url)) ∧
    (mods (pathJoin opts.controllers (generateName url)) = .undefinedLoad →
      resolveControllerName spec mods opts url method = .ok "Defualt") ∧
    (mods (pathJoin opts.controllers (generateName url)) = .err →
      (resolveControllerName spec mods opts url method).isOk = false) := by
  refine ⟨?_, ?_, ?_⟩ <;> intro h3 <;>
    simp [resolveControllerName, existsController, h1, h2, h3, Except.isOk, Except.toBool]

/-- Claim C3 witness: with every module loading to `undefined`, resolving
`GET /pets` (no override) yields the default controller name. -/
theorem claim_c3_witness :
    resolveControllerName petSpec undefMods ctrlOpts "/pets" "get" = .ok "Defualt" :=
  (claim_c3_amended_convention_fallback petSpec undefMods ctrlOpts "/pets" "get"
    petsGetDescriptor rfl rfl).2.1 rfl

/-- Claim C4 counterexample: the claim says that a contract section with
no `application/json` entry makes the interceptor skip validation and
deliver without raising any error. For a `200` section declaring only
`text/plain`, the access `responseCodeSection.content['application/json'].schema`
throws before the original `send` runs, so nothing is delivered. -/
theorem claim_c4_counterexample :
    wrappedSend plainSpec "get" "/plain" 200 (.jstr "hi") =
      .error undefinedSchemaAccessError ∧
    (wrappedSend plainSpec "get" "/plain" 200 (.jstr "hi")).isOk = false := by
  exact ⟨rfl, rfl⟩

/-- Claim C4 (amended): when the contract section for the status code has
no `content` property at all, validation is skipped and the response is
delivered normally; but when a `content` property exists without an
`application/json` entry, the schema access throws, so the interceptor
raises an error and delivery is cancelled. -/
theorem claim_c4_amended_no_json_content
    (spec : Spec) (url method : String) (code : Nat)
    (d : OperationDescriptor) (rcs : ResponseObj) (payload : JsVal)
    (h1 : lookupOp spec url method = some d)
    (h2 : d.responses.lookup (toString code) = some rcs) :
    (rcs.content = none →
      wrappedSend spec method url code payload =
        .ok ⟨code, jsonStringify payload, 1,
          checkInfoLogs code method url (jsonStringify payload)⟩) ∧
    (∀ content, rcs.content = some content → content.lookup "application/json" = none →
      wrappedSend spec method url code payload = .error undefinedSchemaAccessError) := by
  constructor
  · intro h3
    simp [wrappedSend, checkResponse, h1, h2, h3]
  · intro content h3 h4
    simp [wrappedSend, checkResponse, h1, h2, h3, h4]

/-- Claim C4 witness: a `204` response whose section has no `content`
property is delivered with no validation and no error. -/
theorem claim_c4_witness :
    wrappedSend noContentSpec "delete" "/pets" 204 .jnull =
      .ok ⟨204, "null", 1, checkInfoLogs 204 "delete" "/pets" "null"⟩ :=
  (claim_c4_amended_no_json_content noContentSpec "/pets" "delete" 204
    noContentDescriptor { content := none } .jnull rfl rfl).1 rfl

/-- Claim C5 counterexample: the claim says an unparseable payload with a
declared schema is logged like a schema mismatch and is still delivered.
On the data `"I am not JSON"` under the `GET /pets` `200` schema,
`JSON.parse` throws and `checkResponse` raises instead of returning log
entries, so the interceptor never reaches the original `send`. -/
theorem claim_c5_counterexample :
    checkResponse 200 petSpec "get" "/pets" "I am not JSON" = .error jsonParseError ∧
    (checkResponse 200 petSpec "get" "/pets" "I am not JSON").isOk = false := by
  exact ⟨rfl, rfl⟩

/-- Claim C5 (amended): when a schema is declared for the status code and
the payload string is not parseable as JSON, the uncaught `JSON.parse`
exception propagates out of `checkResponse` — it is not logged like a
schema mismatch, and it prevents the wrapped `send` from delivering. -/
theorem claim_c5_amended_unparseable_payload_throws
    (spec : Spec) (url method : String) (code : Nat)
    (d : OperationDescriptor) (rcs : ResponseObj)
    (content : List (String × MediaObj)) (media : MediaObj) (data : String)
    (h1 : lookupOp spec url method = some d)
    (h2 : d.responses.lookup (toString code) = some rcs)
    (h3 : rcs.content = some content)
    (h4 : content.lookup "application/json" = some media)
    (h5 : jsonParse data = none) :
    checkResponse code spec method url data = .error jsonParseError := by
  simp [checkResponse, h1, h2, h3, h4, h5]

/-- Claim C5 witness: the concrete unparseable data `"undefined"` (what
`JSON.stringify` leaves for an undefined payload) under the `GET /pets`
`200` schema makes `checkResponse` throw the parse error. -/
theorem claim_c5_witness :
    checkResponse 200 petSpec "get" "/pets" "undefined" = .error jsonParseError :=
  claim_c5_amended_unparseable_payload_throws petSpec "/pets" "get" 200
    petsGetDescriptor _ _ _ "undefined" rfl rfl rfl rfl rfl

/-- Claim C6 (confirmed): when the Operation Descriptor carries an
`x-router-controller` override, resolution returns that value verbatim,
for every module system — in particular regardless of whether a
conventional module of a different name is also loadable. -/
theorem claim_c6_override_used_verbatim
    (spec : Spec) (mods : Modules) (opts : RouterOptions) (url method : String)
    (d : OperationDescriptor) (c : String)
    (h1 : lookupOp spec url method = some d)
    (h2 : d.xRouterController = some c) :
    resolveControllerName spec mods opts url method = .ok c := by
  simp [resolveControllerName, h1, h2]

/-- Claim C6 witness: the override `"myCustomController"` is selected even
though every module — including the conventional `petsControllers` — is
loadable. -/
theorem claim_c6_witness :
    resolveControllerName overrideSpec definedMods ctrlOpts "/pets" "get" =
      .ok "myCustomController" :=
  claim_c6_override_used_verbatim overrideSpec definedMods ctrlOpts "/pets" "get"
    overrideDescriptor "myCustomController" rfl rfl

/-- Claim C7 (confirmed): a response status code with no entry in the
specification's response map for the current path and method triggers no
validation — `checkResponse` emits exactly its informational lines plus
the wrong-response-code warning, with no schema or validation entries —
and the wrapped `send` still delivers exactly once, with the status code
and the standard forwarded body unchanged. -/
theorem claim_c7_unmatched_code_warns_and_delivers
    (spec : Spec) (url method : String) (code : Nat) (payload : JsVal)
    (d : OperationDescriptor)
    (h1 : lookupOp spec url method = some d)
    (h2 : d.responses.lookup (toString code) = none) :
    wrappedSend spec method url code payload =
      .ok ⟨code, jsonStringify payload, 1,
        checkInfoLogs code method url (jsonStringify payload) ++
          [.text "WARNING: wrong response code", .codeObj code]⟩ := by
  simp [wrappedSend, checkResponse, h1, h2]

/-- Claim C7 witness: status `418` where the specification declares only
`200` for `GET /pets` — the payload is delivered with status 418 and the
warning is logged. -/
theorem claim_c7_witness :
    wrappedSend petSpec "get" "/pets" 418 (.jobj [("message", .jstr "teapot")]) =
      .ok ⟨418, "\x7b\"message\":\"teapot\"\x7d", 1,
        checkInfoLogs 418 "get" "/pets" "\x7b\"message\":\"teapot\"\x7d" ++
          [.text "WARNING: wrong response code", .codeObj 418]⟩ :=
  claim_c7_unmatched_code_warns_and_delivers petSpec "/pets" "get" 418
    (.jobj [("message", .jstr "teapot")]) petsGetDescriptor rfl rfl

/-- The claim's reading of the warning-message format: the violation
messages joined by the period separator `". "`. -/
def joinedByPeriod : List String → String
  | [] => ""
  | [m] => m
  | m :: rest => m ++ ". " ++ joinedByPeriod rest

/-- The string `processErr`'s loop builds before trimming: a `". "`-prefixed
copy of every message, in order. -/
def dotsConcat : List ZSchemaError → String
  | [] => ""
  | e :: rest => ". " ++ e.message ++ dotsConcat rest

/-- The accumulator of `processErr`'s loop distributes over `dotsConcat`. -/
theorem foldl_eq_dotsConcat (l : List ZSchemaError) :
    ∀ acc : String,
      l.foldl (fun acc e => acc ++ ". " ++ e.message) acc = acc ++ dotsConcat l := by
  induction l with
  | nil => intro acc; simp [dotsConcat, String.append_empty]
  | cons e rest ih =>
    intro acc
    rw [List.foldl_cons, ih]
    simp [dotsConcat, String.append_assoc]

/-- Dropping the leading separator of `dotsConcat` yields the
period-joined messages. -/
theorem message_append_dotsConcat (rest : List ZSchemaError) :
    ∀ e : ZSchemaError,
      e.message ++ dotsConcat rest = joinedByPeriod ((e :: rest).map (fun x => x.message)) := by
  induction rest with
  | nil => intro e; simp [dotsConcat, joinedByPeriod, String.append_empty]
  | cons f rest ih =>
    intro e
    have ihf := ih f
    simp only [List.map_cons] at ihf
    simp only [dotsConcat, List.map_cons, joinedByPeriod, ← ihf, String.append_assoc]

/-- Trimming via `substring(2, length)` removes exactly the two characters of a
leading `". "`. -/
theorem jsSubstring_drop_sep (t : String) :
    jsSubstring (". " ++ t) 2 (some (". " ++ t).length) = t := by
  have hdata : (". " ++ t).data = '.' :: ' ' :: t.data := by
    rw [String.data_append]
    rfl
  have hsep : (". " : String).length = 2 := rfl
  have hlen : (". " ++ t).length = t.length + 2 := by
    rw [String.length_append, hsep]
    omega
  simp only [jsSubstring, hdata, hlen]
  have h2 : min 2 (t.length + 2) = 2 := by omega
  have hto : max 2 (t.length + 2) = t.length + 2 := by omega
  simp only [min_self, h2, hto]
  have htake : ('.' :: ' ' :: t.data).take (t.length + 2) = '.' :: ' ' :: t.data := by
    apply List.take_of_length_le
    have hdl : t.data.length = t.length := rfl
    simp [hdl]
  rw [htake]
  rfl

/-- Claim C8 (confirmed): for a non-empty error list, `processErr`
returns the messages joined by the period separator `". "` with the
leading separator trimmed; for a single-element list this is that
element's message exactly (the `[m]` case of `joinedByPeriod`). -/
theorem claim_c8_processErr_joins_messages
    (err : List ZSchemaError) (h : err ≠ []) :
    processErr err = joinedByPeriod (err.map (fun e => e.message)) := by
  obtain ⟨e, rest, rfl⟩ := List.exists_cons_of_ne_nil h
  show jsSubstring _ 2 (some _) = _
  have hfold : (e :: rest).foldl (fun acc x => acc ++ ". " ++ x.message) "" =
      ". " ++ (e.message ++ dotsConcat rest) := by
    rw [foldl_eq_dotsConcat, String.empty_append]
    simp [dotsConcat, String.append_assoc]
  rw [hfold, jsSubstring_drop_sep, message_append_dotsConcat]

/-- Claim C8 witness: two concrete z-schema messages are joined as
`"msg one. msg two"`, and the theorem instance also covers the
single-element case through `joinedByPeriod`. -/
theorem claim_c8_witness :
    processErr [⟨"Expected type integer but found type string"⟩,
                ⟨"Missing required property: name"⟩] =
      joinedByPeriod ["Expected type integer but found type string",
                      "Missing required property: name"] :=
  claim_c8_processErr_joins_messages
    [⟨"Expected type integer but found type string"⟩,
     ⟨"Missing required property: name"⟩] (by simp)

/-- Claim C9 (confirmed): resolution is a pure function of the
specification, the module system, the options, the path, and the method,
so resolving the same path+method twice against unchanged inputs yields
the identical `(moduleName, operationId)` outcome both times. -/
theorem claim_c9_resolution_idempotent
    (spec : Spec) (mods : Modules) (opts : RouterOptions) (url method : String) :
    resolvePair spec mods opts url method = resolvePair spec mods opts url method := rfl

/-- Claim C10 (confirmed): `existsController` returns `false` exactly when
the named module loads to an undefined value; when the load itself fails
it raises (is not `ok`), the exception propagates, and resolution also
fails; and without an override, resolution produces the default module
name only when the conventional module loaded to an undefined value —
never because the module was merely missing. -/
theorem claim_c10_existsController_error_propagation
    (spec : Spec) (mods : Modules) (opts : RouterOptions) (url method : String)
    (d : OperationDescriptor)
    (h1 : lookupOp spec url method = some d)
    (h2 : d.xRouterController = none) :
    (existsController mods opts.controllers (generateName url) = .ok false ↔
      mods (pathJoin opts.controllers (generateName url)) = .undefinedLoad) ∧
    (mods (pathJoin opts.controllers (generateName url)) = .err →
      (existsController mods opts.controllers (generateName url)).isOk = false ∧
      (resolveControllerName spec mods opts url method).isOk = false) ∧
    (resolveControllerName spec mods opts url method = .ok "Defualt" →
      mods (pathJoin opts.controllers (generateName url)) = .undefinedLoad) := by
  have hne : generateName url ≠ "Defualt" := by
    intro hEq
    have hl := congrArg String.length hEq
    rw [generateName, String.length_append] at hl
    have h11 : ("Controllers" : String).length = 11 := rfl
    have h7 : ("Defualt" : String).length = 7 := rfl
    omega
  cases hm : mods (pathJoin opts.controllers (generateName url)) <;>
    simp [existsController, resolveControllerName, h1, h2, hm, hne,
      Except.isOk, Except.toBool]

/-- Claim C10 witness: with every `require` throwing, the existence check
and thereby resolution both fail rather than falling back to the default
module name. -/
theorem claim_c10_witness :
    (existsController failingMods "/controllers" (generateName "/pets")).isOk = false ∧
    (resolveControllerName petSpec failingMods ctrlOpts "/pets" "get").isOk = false :=
  (claim_c10_existsController_error_propagation petSpec failingMods ctrlOpts "/pets" "get"
    petsGetDescriptor rfl rfl).2.1 rfl

end OasRouter
